import Mathlib

/-!
Shallow embedding of `src/snake_game.py` (a PyQt5 snake game).

The simulation core is embedded faithfully:

* `Snake` mirrors the Python `Snake` class (body list head-first, direction
  vector, `grow` flag, stored grid bounds).
* `Food` mirrors the Python `Food` class.  Python's `random.randint(0, n-1)`
  is modelled by an externally supplied draw (a pair of naturals) reduced
  modulo the grid dimension, so every cell of the grid is a possible outcome
  and the function is deterministic in the draw.  `Food.respawn`, a
  `while True` retry loop in Python, is modelled with the list of pending
  draws as fuel and returns `none` exactly when the Python loop would still
  be running after consuming all supplied draws.
* `GameState` carries the fields of `GameBoard` that the simulation reads or
  writes (`cell_size`, grid dimensions, board pixel dimensions, `snake`,
  `food`, `score`, `game_active`).  Qt-only effects (timer start/stop,
  `game_over` signal emission, repaints, focus) have no state in the model.
* `update_game`, `resizeEvent`, `init_game`, `restart_game` and
  `calculate_dimensions` are translated statement by statement from the
  Python methods of the same names.  Python's floor division `//` is
  `Int.fdiv` and its `%` on a positive modulus is `Int.emod`.

Bodies constructed by the program are always non-empty (initial length 3 and
`move` preserves length or grows it); `List.headI` stands for Python's
`body[0]`, which in Python would raise on an empty list.
-/

/-- Game constant `MIN_CELL_SIZE = 15`. -/
def MIN_CELL_SIZE : Int := 15

/-- Game constant `MAX_CELL_SIZE = 35`. -/
def MAX_CELL_SIZE : Int := 35

/-- Game constant `PREFERRED_CELL_SIZE = 24`. -/
def PREFERRED_CELL_SIZE : Int := 24

/-- Game constant `MIN_GRID_SIZE = 15`. -/
def MIN_GRID_SIZE : Int := 15

/-- One grid cell: an integer coordinate pair `(x, y)`. -/
abbrev Cell := Int × Int

/-- One external random draw, standing for one call site of
`random.randint` (an x-draw and a y-draw). -/
abbrev Draw := Nat × Nat

/-- Direction constant `UP = (0, -1)`. -/
def UP : Cell := (0, -1)

/-- Direction constant `DOWN = (0, 1)`. -/
def DOWN : Cell := (0, 1)

/-- Direction constant `LEFT = (-1, 0)`. -/
def LEFT : Cell := (-1, 0)

/-- Direction constant `RIGHT = (1, 0)`. -/
def RIGHT : Cell := (1, 0)

/-- The Python `Snake` class: body cells head first, current direction,
pending-growth flag, and the stored grid bounds. -/
structure Snake where
  body : List Cell
  direction : Cell
  grow : Bool
  grid_width : Int
  grid_height : Int
deriving DecidableEq

/-- `Snake.__init__(grid_width, grid_height)`: a length-3 horizontal body
starting at the grid centre, heading `RIGHT`, `grow = False`. -/
def Snake.init (grid_width grid_height : Int) : Snake :=
  let start_x := Int.fdiv grid_width 2
  let start_y := Int.fdiv grid_height 2
  { body := [(start_x, start_y), (start_x - 1, start_y), (start_x - 2, start_y)],
    direction := RIGHT,
    grow := false,
    grid_width := grid_width,
    grid_height := grid_height }

/-- `Snake.move()`: prepend `head + direction`; pop the tail unless `grow`
is set, in which case clear `grow` instead. -/
def Snake.move (s : Snake) : Snake :=
  let head := s.body.headI
  let new_head : Cell := (head.1 + s.direction.1, head.2 + s.direction.2)
  let body1 := new_head :: s.body
  if s.grow then { s with body := body1, grow := false }
  else { s with body := body1.dropLast }

/-- `Snake.change_direction(new_direction)`: take the new direction unless
it is the componentwise negation of the current one. -/
def Snake.change_direction (s : Snake) (new_direction : Cell) : Snake :=
  if (s.direction.1 * -1, s.direction.2 * -1) ≠ new_direction then
    { s with direction := new_direction }
  else s

/-- `Snake.check_collision()`: true when the head is outside
`[0, grid_width) × [0, grid_height)` or appears again in `body[1:]`. -/
def Snake.check_collision (s : Snake) : Bool :=
  let head := s.body.headI
  if head.1 < 0 ∨ s.grid_width ≤ head.1 ∨ head.2 < 0 ∨ s.grid_height ≤ head.2 then
    true
  else if head ∈ s.body.tail then
    true
  else
    false

/-- `Snake.eat_food()`: set the pending-growth flag. -/
def Snake.eat_food (s : Snake) : Snake :=
  { s with grow := true }

/-- `Snake.update_grid_size(w, h)`: store the new bounds, touching nothing
else. -/
def Snake.update_grid_size (s : Snake) (new_grid_width new_grid_height : Int) : Snake :=
  { s with grid_width := new_grid_width, grid_height := new_grid_height }

/-- The Python `Food` class: stored grid bounds and current position. -/
structure Food where
  grid_width : Int
  grid_height : Int
  position : Cell
deriving DecidableEq

/-- `Food.generate_position()`: `(randint(0, w-1), randint(0, h-1))`, the
draw reduced into the grid ranges. -/
def Food.generate_position (grid_width grid_height : Int) (d : Draw) : Cell :=
  (Int.emod d.1 grid_width, Int.emod d.2 grid_height)

/-- `Food.__init__(w, h)`: store the bounds and place the food by a single
`generate_position` call, with no check against any snake body. -/
def Food.init (grid_width grid_height : Int) (d : Draw) : Food :=
  { grid_width := grid_width,
    grid_height := grid_height,
    position := Food.generate_position grid_width grid_height d }

/-- `Food.respawn(snake_body)`: redraw until the position misses the body.
The draw list is the fuel; `none` means the Python loop would still be
spinning after these draws. -/
def Food.respawn (f : Food) (draws : List Draw) (snake_body : List Cell) : Option Food :=
  match draws with
  | [] => none
  | d :: rest =>
    let pos := Food.generate_position f.grid_width f.grid_height d
    if pos ∈ snake_body then Food.respawn f rest snake_body
    else some { f with position := pos }

/-- `Food.update_grid_size(w, h)`: store the new bounds and re-randomize the
position (again with no body check). -/
def Food.update_grid_size (f : Food) (new_grid_width new_grid_height : Int) (d : Draw) : Food :=
  { grid_width := new_grid_width,
    grid_height := new_grid_height,
    position := Food.generate_position new_grid_width new_grid_height d }

/-- The simulation-relevant state of the Python `GameBoard` widget. -/
structure GameState where
  cell_size : Int
  grid_width : Int
  grid_height : Int
  board_width : Int
  board_height : Int
  snake : Snake
  food : Food
  score : Nat
  game_active : Bool
deriving DecidableEq

/-- `GameBoard.init_game()`: fresh snake and food for the current grid
dimensions, `score = 0`, `game_active = True`.  `d` feeds the food's
`generate_position` call. -/
def init_game (d : Draw) (st : GameState) : GameState :=
  { st with
    snake := Snake.init st.grid_width st.grid_height,
    food := Food.init st.grid_width st.grid_height d,
    score := 0,
    game_active := true }

/-- `GameBoard.update_game()`: one tick.  Move, end the session on
collision, otherwise score and respawn the food when the head reached it.
Timer and repaint calls are presentation effects with no model state.
`none` only when the food-respawn loop exhausts the supplied draws. -/
def update_game (draws : List Draw) (st : GameState) : Option GameState :=
  if st.game_active = false then some st
  else
    let sn := st.snake.move
    if sn.check_collision then
      some { st with snake := sn, game_active := false }
    else if sn.body.headI = st.food.position then
      (st.food.respawn draws sn.body).map fun fd =>
        { st with snake := sn.eat_food, food := fd, score := st.score + 10 }
    else
      some { st with snake := sn }

/-- `GameBoard.restart_game()`: `init_game` plus presentation-only timer
restart and repaint. -/
def restart_game (d : Draw) (st : GameState) : GameState :=
  init_game d st

/-- `GameBoard.calculate_dimensions(width, height)`: derive
`(cell_size, grid_width, grid_height)` from pixel dimensions.  Python `//`
is `Int.fdiv`. -/
def calculate_dimensions (width height : Int) : Int × Int × Int :=
  let available_width := width - 4
  let available_height := height - 4
  let max_grid_width := Int.fdiv available_width MIN_CELL_SIZE
  let max_grid_height := Int.fdiv available_height MIN_CELL_SIZE
  let max_grid_width := max max_grid_width MIN_GRID_SIZE
  let max_grid_height := max max_grid_height MIN_GRID_SIZE
  let cell_size_w := Int.fdiv available_width max_grid_width
  let cell_size_h := Int.fdiv available_height max_grid_height
  let cell_size := min cell_size_w cell_size_h
  let cell_size := max MIN_CELL_SIZE (min MAX_CELL_SIZE cell_size)
  let grid_width := Int.fdiv available_width cell_size
  let grid_height := Int.fdiv available_height cell_size
  let grid_width := max grid_width MIN_GRID_SIZE
  let grid_height := max grid_height MIN_GRID_SIZE
  (cell_size, grid_width, grid_height)

/-- `GameBoard.resizeEvent(event)` for a widget resized to `pw × ph`
pixels.  After `__init__` the snake and food always exist, so the
`hasattr` guard is always true.  `d0` feeds the one `generate_position`
call of the taken branch (`Food.update_grid_size` or `init_game`), `draws`
fuels the `Food.respawn` retry loop of the fitting branch.  Timer
stop/restart and focus are presentation effects. -/
def resizeEvent (pw ph : Int) (d0 : Draw) (draws : List Draw) (st : GameState) :
    Option GameState :=
  let dims := calculate_dimensions pw ph
  let new_cell_size := dims.1
  let new_grid_width := dims.2.1
  let new_grid_height := dims.2.2
  if new_cell_size ≠ st.cell_size ∨ new_grid_width ≠ st.grid_width ∨
      new_grid_height ≠ st.grid_height then
    let old_game_active := st.game_active
    let old_score := st.score
    let st1 :=
      { st with
        cell_size := new_cell_size,
        grid_width := new_grid_width,
        grid_height := new_grid_height,
        board_width := new_grid_width * new_cell_size,
        board_height := new_grid_height * new_cell_size }
    let st2 : Option GameState :=
      if ∀ pos ∈ st1.snake.body,
          0 ≤ pos.1 ∧ pos.1 < new_grid_width ∧ 0 ≤ pos.2 ∧ pos.2 < new_grid_height then
        let sn := st1.snake.update_grid_size new_grid_width new_grid_height
        let fd := st1.food.update_grid_size new_grid_width new_grid_height d0
        (fd.respawn draws sn.body).map fun fd2 => { st1 with snake := sn, food := fd2 }
      else
        some (init_game d0 st1)
    st2.map fun st3 => { st3 with score := old_score, game_active := old_game_active }
  else
    some st

/-- A cell lies inside a `w × h` grid. -/
def InBounds (c : Cell) (w h : Int) : Prop :=
  0 ≤ c.1 ∧ c.1 < w ∧ 0 ≤ c.2 ∧ c.2 < h

instance (c : Cell) (w h : Int) : Decidable (InBounds c w h) := by
  unfold InBounds; infer_instance

/-- The state invariant maintained by ticking: the body is non-empty, and
while the session is active every body cell lies inside the snake's stored
grid bounds. -/
def GoodState (st : GameState) : Prop :=
  st.snake.body ≠ [] ∧
    (st.game_active = true →
      ∀ c ∈ st.snake.body, InBounds c st.snake.grid_width st.snake.grid_height)

/-- States reachable from a given state by any finite sequence of
`update_game` ticks (with arbitrary respawn draws). -/
inductive Reachable : GameState → GameState → Prop
  | refl (st : GameState) : Reachable st st
  | step (st st1 st2 : GameState) (draws : List Draw) :
      Reachable st st1 → update_game draws st1 = some st2 → Reachable st st2

/-- A straight body of `n` cells extending backwards from `hd` against the
direction `dir` (so the snake has just been travelling along `dir`). -/
def straightBody (hd dir : Cell) (n : Nat) : List Cell :=
  (List.range n).map fun i : Nat => (hd.1 - (i : Int) * dir.1, hd.2 - (i : Int) * dir.2)

/-- Scenario A of the spec: 20×20 grid, body `[(10,10),(9,10),(8,10)]`
heading `RIGHT`, target `(11,10)`, score 0, active. -/
def scenarioA : GameState :=
  { cell_size := 24, grid_width := 20, grid_height := 20,
    board_width := 480, board_height := 480,
    snake := { body := [(10, 10), (9, 10), (8, 10)], direction := RIGHT,
               grow := false, grid_width := 20, grid_height := 20 },
    food := { grid_width := 20, grid_height := 20, position := (11, 10) },
    score := 0, game_active := true }

/-- The state `update_game [(0,0)] scenarioA` produces: snake moved (still
length 3) with growth pending, food respawned at `(0,0)`, score 10. -/
def scenarioA_after : GameState :=
  { cell_size := 24, grid_width := 20, grid_height := 20,
    board_width := 480, board_height := 480,
    snake := { body := [(11, 10), (10, 10), (9, 10)], direction := RIGHT,
               grow := true, grid_width := 20, grid_height := 20 },
    food := { grid_width := 20, grid_height := 20, position := (0, 0) },
    score := 10, game_active := true }

/-- Scenario B of the spec: 10×10 grid with the head at `(9,5)` heading
`RIGHT`, about to run off the grid. -/
def scenarioB : GameState :=
  { cell_size := 24, grid_width := 10, grid_height := 10,
    board_width := 240, board_height := 240,
    snake := { body := [(9, 5), (8, 5), (7, 5)], direction := RIGHT,
               grow := false, grid_width := 10, grid_height := 10 },
    food := { grid_width := 10, grid_height := 10, position := (0, 0) },
    score := 0, game_active := true }

/-- The state after ticking `scenarioB`: the head moved out of bounds and
the session was deactivated on that same tick. -/
def scenarioB_after : GameState :=
  { cell_size := 24, grid_width := 10, grid_height := 10,
    board_width := 240, board_height := 240,
    snake := { body := [(10, 5), (9, 5), (8, 5)], direction := RIGHT,
               grow := false, grid_width := 10, grid_height := 10 },
    food := { grid_width := 10, grid_height := 10, position := (0, 0) },
    score := 0, game_active := false }

/-- An active mid-game state on a 20×20 grid with score 40 whose body fits
inside a 30×30 grid; used for the resize-preservation scenario. -/
def resizeFitPre : GameState :=
  { cell_size := 20, grid_width := 20, grid_height := 20,
    board_width := 400, board_height := 400,
    snake := { body := [(5, 5), (4, 5), (3, 5)], direction := RIGHT,
               grow := false, grid_width := 20, grid_height := 20 },
    food := { grid_width := 20, grid_height := 20, position := (9, 9) },
    score := 40, game_active := true }

/-- The state `resizeEvent 468 468 (2,2) [(2,2)] resizeFitPre` produces:
grid 30×30 at cell size 15, same body, food redrawn at `(2,2)`, score and
active flag untouched. -/
def resizeFitPost : GameState :=
  { cell_size := 15, grid_width := 30, grid_height := 30,
    board_width := 450, board_height := 450,
    snake := { body := [(5, 5), (4, 5), (3, 5)], direction := RIGHT,
               grow := false, grid_width := 30, grid_height := 30 },
    food := { grid_width := 30, grid_height := 30, position := (2, 2) },
    score := 40, game_active := true }

/-- An active state on a 30×30 grid whose body does not fit inside a 15×15
grid; shrinking the window forces the discard-and-reinitialize branch. -/
def resizeDiscardPre : GameState :=
  { cell_size := 15, grid_width := 30, grid_height := 30,
    board_width := 450, board_height := 450,
    snake := { body := [(20, 20), (19, 20), (18, 20)], direction := RIGHT,
               grow := false, grid_width := 30, grid_height := 30 },
    food := { grid_width := 30, grid_height := 30, position := (0, 0) },
    score := 40, game_active := true }

/-- The state `resizeEvent 100 100 (7,7) [] resizeDiscardPre` produces: a
fresh centred snake on the 15×15 grid, and a food drawn at `(7,7)` — on
top of the new snake's head. -/
def resizeDiscardPost : GameState :=
  { cell_size := 15, grid_width := 15, grid_height := 15,
    board_width := 225, board_height := 225,
    snake := { body := [(7, 7), (6, 7), (5, 7)], direction := RIGHT,
               grow := false, grid_width := 15, grid_height := 15 },
    food := { grid_width := 15, grid_height := 15, position := (7, 7) },
    score := 40, game_active := true }

/-- A finished-game state on the default 15×15 grid, used to exercise
`restart_game`. -/
def restartPre : GameState :=
  { cell_size := 24, grid_width := 15, grid_height := 15,
    board_width := 360, board_height := 360,
    snake := { body := [(3, 3), (2, 3), (1, 3)], direction := RIGHT,
               grow := false, grid_width := 15, grid_height := 15 },
    food := { grid_width := 15, grid_height := 15, position := (0, 0) },
    score := 70, game_active := false }

/-- A small food/body pair for exercising `Food.respawn` directly. -/
def foodW : Food :=
  { grid_width := 10, grid_height := 10, position := (0, 0) }

/-! ## Helper lemmas about `Snake` -/

theorem Snake.move_cons (x : Cell) (xs : List Cell) (d : Cell) (g : Bool) (w h : Int) :
    Snake.move ⟨x :: xs, d, g, w, h⟩ =
      ⟨(x.1 + d.1, x.2 + d.2) :: (if g then x :: xs else (x :: xs).dropLast),
        d, false, w, h⟩ := by
  cases g <;> rfl

theorem Snake.move_grid_width (s : Snake) : s.move.grid_width = s.grid_width := by
  unfold Snake.move; split <;> rfl

theorem Snake.move_grid_height (s : Snake) : s.move.grid_height = s.grid_height := by
  unfold Snake.move; split <;> rfl

theorem Snake.length_move (s : Snake) :
    s.move.body.length = if s.grow then s.body.length + 1 else s.body.length := by
  unfold Snake.move
  cases hg : s.grow <;> simp [hg, List.length_dropLast]

theorem Snake.move_body_ne_nil (s : Snake) (hs : s.body ≠ []) : s.move.body ≠ [] := by
  have hlen : 0 < s.body.length := List.length_pos.mpr hs
  have h := s.length_move
  rcases hg : s.grow <;> rw [hg] at h <;> simp at h <;>
    exact List.ne_nil_of_length_pos (by omega)

theorem Snake.move_headI (s : Snake) (hs : s.body ≠ []) :
    s.move.body.headI =
      (s.body.headI.1 + s.direction.1, s.body.headI.2 + s.direction.2) := by
  obtain ⟨x, xs, hb⟩ := List.exists_cons_of_ne_nil hs
  unfold Snake.move
  cases hg : s.grow <;> simp [hg, hb, List.dropLast_cons₂]

theorem Snake.mem_move_body (s : Snake) (c : Cell) (hc : c ∈ s.move.body) :
    c = (s.body.headI.1 + s.direction.1, s.body.headI.2 + s.direction.2) ∨
      c ∈ s.body := by
  cases hg : s.grow
  · simp only [Snake.move, hg, Bool.false_eq_true, if_false] at hc
    have h2 := List.dropLast_subset _ hc
    exact List.mem_cons.mp h2
  · simp only [Snake.move, hg, if_true] at hc
    exact List.mem_cons.mp hc

theorem Snake.check_collision_cons_iff (x : Cell) (xs : List Cell) (d : Cell) (g : Bool)
    (w h : Int) :
    Snake.check_collision ⟨x :: xs, d, g, w, h⟩ = true ↔
      (x.1 < 0 ∨ w ≤ x.1 ∨ x.2 < 0 ∨ h ≤ x.2 ∨ x ∈ xs) := by
  simp only [Snake.check_collision, List.headI_cons, List.tail_cons]
  split_ifs with h1 h2 <;> simp_all <;> tauto

theorem Snake.check_collision_false (s : Snake) (h : s.check_collision = false) :
    InBounds s.body.headI s.grid_width s.grid_height ∧ s.body.headI ∉ s.body.tail := by
  simp only [Snake.check_collision] at h
  split_ifs at h with h1 h2
  refine ⟨?_, h2⟩
  push_neg at h1
  unfold InBounds
  omega

theorem Snake.check_collision_of_mem_tail (s : Snake) (h : s.body.headI ∈ s.body.tail) :
    s.check_collision = true := by
  simp only [Snake.check_collision]
  split_ifs <;> simp_all

/-! ## Helper lemmas about `Food.respawn` -/

theorem Food.respawn_position_not_mem (f : Food) (draws : List Draw)
    (snake_body : List Cell) (fd : Food) (h : f.respawn draws snake_body = some fd) :
    fd.position ∉ snake_body := by
  induction draws generalizing f with
  | nil => simp [Food.respawn] at h
  | cons d rest ih =>
    simp only [Food.respawn] at h
    split_ifs at h with hmem
    · exact ih f h
    · have : fd = { f with position := Food.generate_position f.grid_width f.grid_height d } :=
        (Option.some_injective _ h).symm
      rw [this]
      exact hmem

/-! ## Helper lemmas about `straightBody` -/

theorem straightBody_ne_nil (hd dir : Cell) (n : Nat) (hn : 0 < n) :
    straightBody hd dir n ≠ [] := by
  intro hcontra
  have := congrArg List.length hcontra
  simp [straightBody] at this
  omega

theorem straightBody_concat (hd dir : Cell) (n : Nat) :
    straightBody hd dir (n + 1) =
      straightBody hd dir n ++ [(hd.1 - n * dir.1, hd.2 - n * dir.2)] := by
  simp [straightBody, List.range_succ]

theorem straightBody_headI (hd dir : Cell) (n : Nat) :
    (straightBody hd dir (n + 1)).headI = hd := by
  simp [straightBody, List.range_succ_eq_map]

theorem mem_straightBody (hd dir : Cell) (n i : Nat) (hi : i < n) :
    ((hd.1 - i * dir.1, hd.2 - i * dir.2) : Cell) ∈ straightBody hd dir n := by
  exact List.mem_map_of_mem _ (List.mem_range.mpr hi)

/-! ## Invariant lemmas about `update_game` -/

theorem Snake.move_cells_inbounds (s : Snake) (hne : s.body ≠ [])
    (hcol : s.move.check_collision = false)
    (hbounds : ∀ c ∈ s.body, InBounds c s.grid_width s.grid_height) :
    ∀ c ∈ s.move.body, InBounds c s.move.grid_width s.move.grid_height := by
  intro c hc
  rw [s.move_grid_width, s.move_grid_height]
  rcases s.mem_move_body c hc with rfl | hmem
  · have hb := s.move.check_collision_false hcol
    have hhead := s.move_headI hne
    rw [hhead] at hb
    have h1 := hb.1
    rwa [s.move_grid_width, s.move_grid_height] at h1
  · exact hbounds c hmem

theorem update_game_good (draws : List Draw) (st st2 : GameState)
    (h : update_game draws st = some st2) (hg : GoodState st) : GoodState st2 := by
  obtain ⟨hne, hbounds⟩ := hg
  simp only [update_game] at h
  split_ifs at h with hact hcol hfood
  · simp only [Option.some.injEq] at h
    subst h
    exact ⟨hne, hbounds⟩
  · simp only [Option.some.injEq] at h
    subst h
    refine ⟨st.snake.move_body_ne_nil hne, ?_⟩
    intro hcontra
    exact absurd hcontra (by simp)
  · rcases Option.map_eq_some'.mp h with ⟨fd, hfd, rfl⟩
    have hact2 : st.game_active = true := by
      revert hact; cases st.game_active <;> simp
    refine ⟨st.snake.move_body_ne_nil hne, ?_⟩
    intro _ c hc
    have hcol2 : st.snake.move.check_collision = false := by
      revert hcol; cases st.snake.move.check_collision <;> simp
    exact st.snake.move_cells_inbounds hne hcol2 (hbounds hact2) c hc
  · simp only [Option.some.injEq] at h
    subst h
    have hact2 : st.game_active = true := by
      revert hact; cases st.game_active <;> simp
    refine ⟨st.snake.move_body_ne_nil hne, ?_⟩
    intro _ c hc
    have hcol2 : st.snake.move.check_collision = false := by
      revert hcol; cases st.snake.move.check_collision <;> simp
    exact st.snake.move_cells_inbounds hne hcol2 (hbounds hact2) c hc

theorem init_game_good (d : Draw) (st : GameState)
    (hw : 4 ≤ st.grid_width) (hh : 1 ≤ st.grid_height) :
    GoodState (init_game d st) := by
  have hw2 : 2 ≤ Int.fdiv st.grid_width 2 ∧ Int.fdiv st.grid_width 2 < st.grid_width := by
    rw [Int.fdiv_eq_ediv _ (by norm_num)]
    omega
  have hh2 : 0 ≤ Int.fdiv st.grid_height 2 ∧ Int.fdiv st.grid_height 2 < st.grid_height := by
    rw [Int.fdiv_eq_ediv _ (by norm_num)]
    omega
  constructor
  · simp [init_game, Snake.init]
  · intro _ c hc
    simp only [init_game, Snake.init, List.mem_cons, List.not_mem_nil, or_false] at hc
    rcases hc with rfl | rfl | rfl <;>
      · simp only [init_game, Snake.init, InBounds]
        omega

theorem reachable_good (st st2 : GameState) (h : Reachable st st2) (hg : GoodState st) :
    GoodState st2 := by
  induction h with
  | refl => exact hg
  | step st1 st2 draws hr hup ih => exact update_game_good draws st1 st2 hup ih

theorem update_game_length_le (draws : List Draw) (st st2 : GameState)
    (h : update_game draws st = some st2) :
    st.snake.body.length ≤ st2.snake.body.length := by
  have hlen := st.snake.length_move
  simp only [update_game] at h
  split_ifs at h with hact hcol hfood
  · simp only [Option.some.injEq] at h
    subst h
    exact le_refl _
  · simp only [Option.some.injEq] at h
    subst h
    show st.snake.body.length ≤ st.snake.move.body.length
    split at hlen <;> omega
  · rcases Option.map_eq_some'.mp h with ⟨fd, hfd, rfl⟩
    show st.snake.body.length ≤ st.snake.move.body.length
    split at hlen <;> omega
  · simp only [Option.some.injEq] at h
    subst h
    show st.snake.body.length ≤ st.snake.move.body.length
    split at hlen <;> omega

/-! ## Claim theorems -/

/-- C5: `Snake.move` (the spec's `step()`) prepends `head + heading` to the
body; with `grow` clear it removes the last element so the net length is
unchanged, with `grow` set it keeps the tail (net length +1) and clears
`grow`.  The full-result equality shows the update is purely kinematic: no
bounds or self-intersection check happens, and the heading and stored grid
bounds pass through untouched. -/
theorem claim_C5_step_characterization (x : Cell) (xs : List Cell) (d : Cell) (g : Bool)
    (w h : Int) :
    Snake.move ⟨x :: xs, d, g, w, h⟩ =
      ⟨(x.1 + d.1, x.2 + d.2) :: (if g then x :: xs else (x :: xs).dropLast),
        d, false, w, h⟩ ∧
    (Snake.move ⟨x :: xs, d, g, w, h⟩).body.length =
      (if g then (x :: xs).length + 1 else (x :: xs).length) := by
  refine ⟨Snake.move_cons x xs d g w h, ?_⟩
  cases g <;> simp [Snake.move, List.length_dropLast]

/-- C6 counterexample: Scenario C as stated fails on the code.  From body
`[(5,5),(5,6),(5,7),(5,8),(5,4)]` moving Up does put the head on `(5,4)`,
but `move()` pops the tail segment `(5,4)` in that same step, so
`check_collision()` returns `false`, not `true`. -/
theorem claim_C6_counterexample :
    (Snake.move ⟨[(5, 5), (5, 6), (5, 7), (5, 8), (5, 4)], UP, false, 10, 10⟩).body.headI
        = (5, 4) ∧
    (Snake.move ⟨[(5, 5), (5, 6), (5, 7), (5, 8), (5, 4)], UP, false, 10, 10⟩).check_collision
        = false := by
  decide

/-- C6 (amended): `Snake.check_collision` returns `true` exactly when the
head lies outside `[0, grid_width) × [0, grid_height)` or equals another
body cell at an index other than 0 (`body[0] in body[1:]`); being a plain
function of the snake it mutates nothing.  In Scenario C the tail cell
`(5,4)` is vacated by the very move that claims it, so the collision there
occurs only when growth is pending and the tail is kept. -/
theorem claim_C6_amended :
    (∀ (x : Cell) (xs : List Cell) (d : Cell) (g : Bool) (w h : Int),
       Snake.check_collision ⟨x :: xs, d, g, w, h⟩ = true ↔
         (¬ InBounds x w h ∨ x ∈ xs)) ∧
    (Snake.move
        ⟨[(5, 5), (5, 6), (5, 7), (5, 8), (5, 4)], UP, true, 10, 10⟩).check_collision
      = true := by
  constructor
  · intro x xs d g w h
    rw [Snake.check_collision_cons_iff]
    unfold InBounds
    simp only [not_and_or, not_le, not_lt]
    tauto
  · decide

/-- C7: `Snake.change_direction` adopts the requested heading unless it is
the exact opposite of the current one, in which case the call leaves the
snake completely unchanged (silently, no error); hence with the reversal
rejected, the following `move` and its collision outcome are exactly those
of a snake that never received the request — no self-collision can be
caused solely by the reversal. -/
theorem claim_C7_no_reverse (s : Snake) (req : Cell) (hlen : 2 ≤ s.body.length) :
    s.change_direction (s.direction.1 * -1, s.direction.2 * -1) = s ∧
    (req ≠ (s.direction.1 * -1, s.direction.2 * -1) →
      (s.change_direction req).direction = req) ∧
    (s.change_direction (s.direction.1 * -1, s.direction.2 * -1)).move.check_collision =
      s.move.check_collision := by
  have h1 : s.change_direction (s.direction.1 * -1, s.direction.2 * -1) = s := by
    simp [Snake.change_direction]
  refine ⟨h1, ?_, by rw [h1]⟩
  intro hreq
  unfold Snake.change_direction
  rw [if_pos (Ne.symm hreq)]

/-- C7 witness: the rejection law applied to the freshly initialized snake
on a 10×10 grid and the request `UP`. -/
theorem claim_C7_witness :
    2 ≤ (Snake.init 10 10).body.length ∧
    ((Snake.init 10 10).change_direction
        ((Snake.init 10 10).direction.1 * -1, (Snake.init 10 10).direction.2 * -1) =
          Snake.init 10 10 ∧
      (UP ≠ ((Snake.init 10 10).direction.1 * -1, (Snake.init 10 10).direction.2 * -1) →
        ((Snake.init 10 10).change_direction UP).direction = UP) ∧
      ((Snake.init 10 10).change_direction
          ((Snake.init 10 10).direction.1 * -1,
            (Snake.init 10 10).direction.2 * -1)).move.check_collision =
        (Snake.init 10 10).move.check_collision) :=
  ⟨by decide, claim_C7_no_reverse (Snake.init 10 10) UP (by decide)⟩

/-- C9: for positive pixel inputs, `calculate_dimensions` returns a cell
size clamped into `[MIN_CELL_SIZE, MAX_CELL_SIZE] = [15, 35]`, and grid
dimensions equal to the available space (pixels minus the 4-pixel border
allowance) floor-divided by that final cell size, floored to at least
`MIN_GRID_SIZE = 15`.  As a Lean function it is pure, deterministic and
total. -/
theorem claim_C9_dimension_derivation (width height : Int)
    (hw : 0 < width) (hh : 0 < height) :
    MIN_CELL_SIZE ≤ (calculate_dimensions width height).1 ∧
    (calculate_dimensions width height).1 ≤ MAX_CELL_SIZE ∧
    (calculate_dimensions width height).2.1 =
      max (Int.fdiv (width - 4) (calculate_dimensions width height).1) MIN_GRID_SIZE ∧
    (calculate_dimensions width height).2.2 =
      max (Int.fdiv (height - 4) (calculate_dimensions width height).1) MIN_GRID_SIZE := by
  refine ⟨le_max_left _ _, ?_, rfl, rfl⟩
  exact max_le (by norm_num [MIN_CELL_SIZE, MAX_CELL_SIZE]) (min_le_left _ _)

/-- C9 witness: the derivation evaluated at a 604×604 pixel area, which
yields cell size 15 and a 40×40 grid. -/
theorem claim_C9_witness :
    (0 : Int) < 604 ∧ (0 : Int) < 604 ∧
    (MIN_CELL_SIZE ≤ (calculate_dimensions 604 604).1 ∧
     (calculate_dimensions 604 604).1 ≤ MAX_CELL_SIZE ∧
     (calculate_dimensions 604 604).2.1 =
       max (Int.fdiv (604 - 4) (calculate_dimensions 604 604).1) MIN_GRID_SIZE ∧
     (calculate_dimensions 604 604).2.2 =
       max (Int.fdiv (604 - 4) (calculate_dimensions 604 604).1) MIN_GRID_SIZE) :=
  ⟨by decide, by decide, claim_C9_dimension_derivation 604 604 (by decide) (by decide)⟩

/-- C3 counterexample: `restart_game` does not make the fresh target avoid
the fresh body.  On the 15×15 grid the new snake's head is the centre
`(7,7)`, and the draw `(7,7)` places the food exactly there: the restarted
game's food position is a member of the restarted body. -/
theorem claim_C3_counterexample :
    (restart_game (7, 7) restartPre).food.position ∈
        (restart_game (7, 7) restartPre).snake.body ∧
    (restart_game (7, 7) restartPre).score = 0 ∧
    (restart_game (7, 7) restartPre).game_active = true := by
  decide

/-- C3 (amended): `restart_game` rebuilds the actor as a fresh length-3
horizontally-adjacent body centred in the current grid, heading `RIGHT`
with no pending growth, resets `score` to 0 and `game_active` to true, and
keeps the current grid dimensions; the fresh target is drawn uniformly
from the full grid by `generate_position` with no check against the new
body (so it may land on a body cell). -/
theorem claim_C3_amended (d : Draw) (st : GameState) :
    (restart_game d st).snake.body =
      [(Int.fdiv st.grid_width 2, Int.fdiv st.grid_height 2),
       (Int.fdiv st.grid_width 2 - 1, Int.fdiv st.grid_height 2),
       (Int.fdiv st.grid_width 2 - 2, Int.fdiv st.grid_height 2)] ∧
    (restart_game d st).snake.direction = RIGHT ∧
    (restart_game d st).snake.grow = false ∧
    (restart_game d st).snake.grid_width = st.grid_width ∧
    (restart_game d st).snake.grid_height = st.grid_height ∧
    (restart_game d st).score = 0 ∧
    (restart_game d st).game_active = true ∧
    (restart_game d st).grid_width = st.grid_width ∧
    (restart_game d st).grid_height = st.grid_height ∧
    (restart_game d st).food.position =
      Food.generate_position st.grid_width st.grid_height d :=
  ⟨rfl, rfl, rfl, rfl, rfl, rfl, rfl, rfl, rfl, rfl⟩

theorem reversal_move_collides (hd H : Cell) (m : Nat) (w h : Int) :
    (Snake.move
        ⟨straightBody hd H (m + 3), (H.1 * -1, H.2 * -1), false, w, h⟩).check_collision
      = true := by
  have hhead : (straightBody hd H (m + 3)).headI = hd := straightBody_headI hd H (m + 2)
  have hbody : (Snake.move
      ⟨straightBody hd H (m + 3), (H.1 * -1, H.2 * -1), false, w, h⟩).body
      = (hd.1 - H.1, hd.2 - H.2) :: straightBody hd H (m + 2) := by
    simp only [Snake.move, Bool.false_eq_true, if_false, hhead]
    rw [straightBody_concat hd H (m + 2), ← List.cons_append, List.dropLast_concat]
    norm_num [mul_comm, sub_eq_add_neg]
  apply Snake.check_collision_of_mem_tail
  rw [hbody, List.headI_cons, List.tail_cons]
  have hmem := mem_straightBody hd H (m + 2) 1 (by omega)
  simpa using hmem

/-- C1 counterexample: Scenario A refuted.  On the tick where the head
reaches the target (score does go up by 10), the body length stays 3 — it
does not grow to 4 on that same tick, because `eat_food` only sets the
growth flag for the next `move`. -/
theorem claim_C1_counterexample :
    update_game [(0, 0)] scenarioA = some scenarioA_after ∧
    scenarioA.snake.body.length = 3 ∧
    scenarioA_after.snake.body.length = 3 ∧
    scenarioA_after.snake.body.length ≠ 4 ∧
    scenarioA_after.score = scenarioA.score + 10 := by
  decide

/-- C1 (amended): on a tick where the moved head equals the pre-tick target
(and no collision occurred), the score increases by exactly 10, the new
target avoids every body cell, the body length is unchanged on that tick
with the growth flag now pending, and the next `move` adds exactly one
cell; moreover `len(body)` is non-decreasing across every completed tick. -/
theorem claim_C1_amended (draws : List Draw) (st st2 : GameState)
    (h : update_game draws st = some st2) :
    st.snake.body.length ≤ st2.snake.body.length ∧
    (st.game_active = true →
     st.snake.move.check_collision = false →
     st.snake.move.body.headI = st.food.position →
     st.snake.grow = false →
       st2.score = st.score + 10 ∧
       st2.snake.body.length = st.snake.body.length ∧
       st2.snake.grow = true ∧
       st2.food.position ∉ st2.snake.body ∧
       st2.snake.move.body.length = st2.snake.body.length + 1) := by
  refine ⟨update_game_length_le draws st st2 h, ?_⟩
  intro hact hcol hhead hgrow
  simp only [update_game, hact, hcol, hhead, Bool.true_eq_false, if_false,
    Bool.false_eq_true, if_true] at h
  rcases Option.map_eq_some'.mp h with ⟨fd, hfd, hst⟩
  subst hst
  refine ⟨rfl, ?_, rfl, ?_, ?_⟩
  · show st.snake.move.body.length = st.snake.body.length
    have hlen := st.snake.length_move
    rw [hgrow] at hlen
    simpa using hlen
  · exact Food.respawn_position_not_mem _ _ _ _ hfd
  · show (st.snake.move.eat_food).move.body.length = st.snake.move.eat_food.body.length + 1
    have hlen := (st.snake.move.eat_food).length_move
    simpa [Snake.eat_food] using hlen

/-- C1 witness: the amended tick law evaluated on Scenario A. -/
theorem claim_C1_witness :
    update_game [(0, 0)] scenarioA = some scenarioA_after ∧
    (scenarioA.snake.body.length ≤ scenarioA_after.snake.body.length ∧
     (scenarioA.game_active = true →
      scenarioA.snake.move.check_collision = false →
      scenarioA.snake.move.body.headI = scenarioA.food.position →
      scenarioA.snake.grow = false →
        scenarioA_after.score = scenarioA.score + 10 ∧
        scenarioA_after.snake.body.length = scenarioA.snake.body.length ∧
        scenarioA_after.snake.grow = true ∧
        scenarioA_after.food.position ∉ scenarioA_after.snake.body ∧
        scenarioA_after.snake.move.body.length = scenarioA_after.snake.body.length + 1)) :=
  ⟨by decide, claim_C1_amended [(0, 0)] scenarioA scenarioA_after (by decide)⟩

/-- C2: `resizeEvent` preserves the session's `score` and `game_active`
flag whenever it returns — on the no-change path, on the smart-update path
(body fits the new bounds) and on the discard-and-reinitialize path alike,
because the handler saves both fields first and restores them
unconditionally after either branch. -/
theorem claim_C2_resize_preserves_session (pw ph : Int) (d0 : Draw) (draws : List Draw)
    (st st2 : GameState) (h : resizeEvent pw ph d0 draws st = some st2) :
    st2.score = st.score ∧ st2.game_active = st.game_active := by
  simp only [resizeEvent] at h
  split_ifs at h with hchanged hfits
  · rcases Option.map_eq_some'.mp h with ⟨st3, hst3, hst⟩
    subst hst
    exact ⟨rfl, rfl⟩
  · rcases Option.map_eq_some'.mp h with ⟨st3, hst3, hst⟩
    subst hst
    exact ⟨rfl, rfl⟩
  · obtain rfl : st = st2 := Option.some.inj h
    exact ⟨rfl, rfl⟩

/-- C2 witness: an active score-40 session resized from a 20×20 grid to a
30×30 grid (468×468 pixels) with the body fitting the new bounds keeps
`score = 40` and `game_active = true`. -/
theorem claim_C2_witness :
    resizeEvent 468 468 (2, 2) [(2, 2)] resizeFitPre = some resizeFitPost ∧
    (resizeFitPost.score = resizeFitPre.score ∧
     resizeFitPost.game_active = resizeFitPre.game_active) :=
  ⟨by decide,
    claim_C2_resize_preserves_session 468 468 (2, 2) [(2, 2)] resizeFitPre resizeFitPost
      (by decide)⟩

/-- C4: from a freshly initialized game, every state reachable by ticking
has all body cells inside `[0, grid_width) × [0, grid_height)` or is
inactive; and in Scenario B (10×10 grid, head `(9,5)` heading `RIGHT`) the
tick that moves the head out of bounds deactivates the session on that
same tick. -/
theorem claim_C4_bounds_invariant :
    (∀ (d : Draw) (st0 st2 : GameState),
       4 ≤ st0.grid_width → 1 ≤ st0.grid_height →
       Reachable (init_game d st0) st2 →
       (∀ c ∈ st2.snake.body, InBounds c st2.snake.grid_width st2.snake.grid_height) ∨
         st2.game_active = false) ∧
    (update_game [] scenarioB = some scenarioB_after ∧
     scenarioB_after.game_active = false) := by
  constructor
  · intro d st0 st2 hw hh hr
    have hg := reachable_good (init_game d st0) st2 hr (init_game_good d st0 hw hh)
    by_cases hact : st2.game_active = true
    · exact Or.inl (hg.2 hact)
    · refine Or.inr ?_
      revert hact
      cases st2.game_active <;> simp
  · exact ⟨by decide, by decide⟩

/-- C4 witness: the invariant applied to the initialization of a 10×10
game (Scenario B dimensions) at the reflexive end of the reachability
relation. -/
theorem claim_C4_witness :
    4 ≤ scenarioB.grid_width ∧ 1 ≤ scenarioB.grid_height ∧
    ((∀ c ∈ (init_game (0, 0) scenarioB).snake.body,
        InBounds c (init_game (0, 0) scenarioB).snake.grid_width
          (init_game (0, 0) scenarioB).snake.grid_height) ∨
      (init_game (0, 0) scenarioB).game_active = false) :=
  ⟨by decide, by decide,
    claim_C4_bounds_invariant.1 (0, 0) scenarioB (init_game (0, 0) scenarioB)
      (by decide) (by decide) (Reachable.refl _)⟩

/-- C8 counterexample: the discard-and-reinitialize branch of the resize
handler repositions the target without any body check.  Shrinking a 30×30
game (body outside the new 15×15 bounds) to 100×100 pixels rebuilds the
game via `init_game`, and the draw `(7,7)` puts the fresh target exactly
on the fresh snake's head — a resize-triggered reposition landing on the
body. -/
theorem claim_C8_counterexample :
    resizeEvent 100 100 (7, 7) [] resizeDiscardPre = some resizeDiscardPost ∧
    resizeDiscardPost.food.position ≠ resizeDiscardPre.food.position ∧
    resizeDiscardPost.food.position ∈ resizeDiscardPost.snake.body := by
  decide

/-- C8 (amended): whenever `Food.respawn` returns, the new target position
is not a member of the given body; and on the smart-update branch of the
resize handler (dimensions changed and every body cell fits the new
bounds) the reconciled state's target avoids the body.  On the
discard-and-reinitialize branch the fresh target is drawn with no body
check and may land on a body cell. -/
theorem claim_C8_amended :
    (∀ (f fd : Food) (draws : List Draw) (snake_body : List Cell),
       f.respawn draws snake_body = some fd → fd.position ∉ snake_body) ∧
    (∀ (pw ph : Int) (d0 : Draw) (draws : List Draw) (st st2 : GameState),
       ((calculate_dimensions pw ph).1 ≠ st.cell_size ∨
        (calculate_dimensions pw ph).2.1 ≠ st.grid_width ∨
        (calculate_dimensions pw ph).2.2 ≠ st.grid_height) →
       (∀ c ∈ st.snake.body,
          InBounds c (calculate_dimensions pw ph).2.1 (calculate_dimensions pw ph).2.2) →
       resizeEvent pw ph d0 draws st = some st2 →
       st2.food.position ∉ st2.snake.body) := by
  constructor
  · intro f fd draws snake_body hf
    exact Food.respawn_position_not_mem f draws snake_body fd hf
  · intro pw ph d0 draws st st2 hchanged hfit h
    simp only [resizeEvent] at h
    split_ifs at h with hfits
    · rcases Option.map_eq_some'.mp h with ⟨st3, hst3, hst⟩
      rcases Option.map_eq_some'.mp hst3 with ⟨fd2, hfd2, hst4⟩
      subst hst
      subst hst4
      exact Food.respawn_position_not_mem _ _ _ _ hfd2
    · exact absurd (fun pos hpos => hfit pos hpos) hfits

/-- C8 witness: the respawn half applied to a concrete retry — from the
body `[(1,1)]` the draw `(3,3)` is accepted and misses the body. -/
theorem claim_C8_witness :
    Food.respawn foodW [(3, 3)] [(1, 1)] =
        some { grid_width := 10, grid_height := 10, position := (3, 3) } ∧
    ({ grid_width := 10, grid_height := 10, position := (3, 3) } : Food).position ∉
        ([(1, 1)] : List Cell) :=
  ⟨by decide,
    claim_C8_amended.1 foodW { grid_width := 10, grid_height := 10, position := (3, 3) }
      [(3, 3)] [(1, 1)] (by decide)⟩

/-- C10: for a straight body of length ≥ 3 heading `H`, two
`change_direction` calls between consecutive moves — first to a heading
perpendicular to `H`, then to the opposite of `H` — are both accepted,
because the anti-reversal guard compares only against the currently stored
heading; the heading ends up as the opposite of `H`, and the next `move`
then reports a collision (`check_collision = true`): the no-reverse guard
does not prevent a 180° reversal accumulated over two inputs in one tick. -/
theorem claim_C10_double_turn_reversal (hd H P : Cell) (n : Nat) (w h : Int)
    (hH : H = UP ∨ H = DOWN ∨ H = LEFT ∨ H = RIGHT)
    (hP : P = UP ∨ P = DOWN ∨ P = LEFT ∨ P = RIGHT)
    (hperp : H.1 * P.1 + H.2 * P.2 = 0)
    (hn : 3 ≤ n) :
    ((⟨straightBody hd H n, H, false, w, h⟩ : Snake).change_direction P).direction = P ∧
    ((((⟨straightBody hd H n, H, false, w, h⟩ : Snake).change_direction P).change_direction
        (H.1 * -1, H.2 * -1)).direction = (H.1 * -1, H.2 * -1)) ∧
    ((((⟨straightBody hd H n, H, false, w, h⟩ : Snake).change_direction P).change_direction
        (H.1 * -1, H.2 * -1)).move.check_collision = true) := by
  have hne1 : ((H.1 * -1, H.2 * -1) : Cell) ≠ P := by
    intro hcontra
    rw [← hcontra] at hperp
    rcases hH with rfl | rfl | rfl | rfl <;> norm_num [UP, DOWN, LEFT, RIGHT] at hperp
  have hne2 : ((P.1 * -1, P.2 * -1) : Cell) ≠ (H.1 * -1, H.2 * -1) := by
    intro hcontra
    have hfst : P.1 = H.1 := by
      have h1 := congrArg Prod.fst hcontra
      simp only at h1
      omega
    have hsnd : P.2 = H.2 := by
      have h2 := congrArg Prod.snd hcontra
      simp only at h2
      omega
    rw [hfst, hsnd] at hperp
    rcases hH with rfl | rfl | rfl | rfl <;> norm_num [UP, DOWN, LEFT, RIGHT] at hperp
  have h1 : ((⟨straightBody hd H n, H, false, w, h⟩ : Snake).change_direction P) =
      ⟨straightBody hd H n, P, false, w, h⟩ := by
    unfold Snake.change_direction
    split_ifs with hcond
    · rfl
    · exact absurd (not_not.mp hcond) hne1
  have h2 : ((⟨straightBody hd H n, P, false, w, h⟩ : Snake).change_direction
      (H.1 * -1, H.2 * -1)) = ⟨straightBody hd H n, (H.1 * -1, H.2 * -1), false, w, h⟩ := by
    unfold Snake.change_direction
    split_ifs with hcond
    · rfl
    · exact absurd (not_not.mp hcond) hne2
  obtain ⟨m, rfl⟩ : ∃ m, n = m + 3 := ⟨n - 3, by omega⟩
  rw [h1, h2]
  exact ⟨rfl, rfl, reversal_move_collides hd H m w h⟩

/-- C10 witness: the double-turn reversal executed from a straight
3-segment body at `(5,5)` heading `RIGHT`, turning `UP` then `LEFT`
(the opposite of `RIGHT`), ending in a self-collision. -/
theorem claim_C10_witness :
    (RIGHT = UP ∨ RIGHT = DOWN ∨ RIGHT = LEFT ∨ RIGHT = RIGHT) ∧
    (UP = UP ∨ UP = DOWN ∨ UP = LEFT ∨ UP = RIGHT) ∧
    (RIGHT.1 * UP.1 + RIGHT.2 * UP.2 = 0) ∧
    (3 ≤ 3) ∧
    (((⟨straightBody (5, 5) RIGHT 3, RIGHT, false, 10, 10⟩ : Snake).change_direction
        UP).direction = UP ∧
     ((((⟨straightBody (5, 5) RIGHT 3, RIGHT, false, 10, 10⟩ : Snake).change_direction
        UP).change_direction (RIGHT.1 * -1, RIGHT.2 * -1)).direction =
          (RIGHT.1 * -1, RIGHT.2 * -1)) ∧
     ((((⟨straightBody (5, 5) RIGHT 3, RIGHT, false, 10, 10⟩ : Snake).change_direction
        UP).change_direction (RIGHT.1 * -1, RIGHT.2 * -1)).move.check_collision = true)) :=
  ⟨by decide, by decide, by decide, by decide,
    claim_C10_double_turn_reversal (5, 5) RIGHT UP 3 10 10 (by decide) (by decide)
      (by decide) (by decide)⟩
